import Mathlib

/-!
Shallow embedding of `src/Lab11.py` (a small gradebook utility).

Modelling choices:
* A Python `dict` is an association list with unique keys, built by
  `dinsert` (last-write-wins on the value, first-insertion position kept),
  exactly the observable behaviour of insertion-ordered Python dicts.
* File contents are passed in explicitly: `load_students` and
  `load_assignments` take the list of lines of their text file,
  `load_submissions` takes the directory listing as a list of
  (filename, file-content) pairs.
* Python floats are modelled as rationals (`ℚ`); Python's `round`
  (round-half-to-even) is `pythonRound`.
* `int(...)` parsing is modelled on its ASCII-decimal core (optional
  sign, decimal digits); `float(...)` on plain decimal notation
  (optional sign, digits, optional fractional part).  The claims only
  depend on these being partial (returning `Option`).
* Query functions return `Option` results: `none` models the
  "Student not found" / "Assignment not found" message paths,
  `some` models printed numeric output.
-/

/-- Python-dict insertion: overwrite the value if the key is present
(keeping its position), otherwise append at the end. -/
def dinsert {α : Type} (k : String) (v : α) : List (String × α) → List (String × α)
  | [] => [(k, v)]
  | (k', v') :: rest => if k' = k then (k', v) :: rest else (k', v') :: dinsert k v rest

/-- Python-dict lookup (`d[k]` / `k in d`). -/
def dlookup {α : Type} (k : String) : List (String × α) → Option α
  | [] => none
  | (k', v) :: rest => if k' = k then some v else dlookup k rest

/-- The keys of an association list. -/
def dkeys {α : Type} (d : List (String × α)) : List String := d.map Prod.fst

/-- Python `int(s)` on an already-stripped string: optional sign then
one or more ASCII decimal digits. -/
def pythonParseInt (s : String) : Option Int :=
  let digits : List Char → Option Nat := fun cs =>
    if cs.isEmpty then none
    else if cs.all Char.isDigit then
      some (cs.foldl (fun n c => 10 * n + (c.toNat - 48)) 0)
    else none
  match s.data with
  | '-' :: rest => (digits rest).map (fun n => -(n : Int))
  | '+' :: rest => (digits rest).map (fun n => (n : Int))
  | l => (digits l).map (fun n => (n : Int))

/-- Python `float(s)` on an already-stripped string, decimal notation:
optional sign, integer digits, optional `.` and fractional digits
(at least one digit overall). -/
def pythonParseFloat (s : String) : Option ℚ :=
  let digitsVal : List Char → Nat := fun cs =>
    cs.foldl (fun n c => 10 * n + (c.toNat - 48)) 0
  let unsigned : List Char → Option ℚ := fun cs =>
    match cs.span Char.isDigit with
    | (intPart, rest) =>
      match rest with
      | [] => if intPart.isEmpty then none else some (digitsVal intPart : ℚ)
      | '.' :: fracPart =>
        if fracPart.all Char.isDigit ∧ ¬(intPart.isEmpty ∧ fracPart.isEmpty) then
          some ((digitsVal intPart : ℚ) +
            (digitsVal fracPart : ℚ) / ((10 : ℚ) ^ fracPart.length))
        else none
      | _ => none
  match s.data with
  | '-' :: rest => (unsigned rest).map (fun q => -q)
  | '+' :: rest => unsigned rest
  | l => unsigned l

/-- Python `round` to the nearest integer: round-half-to-even. -/
def pythonRound (q : ℚ) : Int :=
  let n := ⌊q⌋
  if q - n < 1 / 2 then n
  else if (1 : ℚ) / 2 < q - n then n + 1
  else if n % 2 = 0 then n else n + 1

/-- Step function of `Lab11.load_students`, lines 7–26: one processing
step per line of `students.txt`. -/
def studentStep (students : List (String × String)) (line : String) :
    List (String × String) :=
  let line := line.trim
  if line = "" then students
  else
    let parts := line.splitOn ","
    if parts.length ≠ 2 then students
    else dinsert (parts.getD 0 "").trim (parts.getD 1 "").trim students

/-- Function `Lab11.load_students` on the list of lines of `students.txt`. -/
def load_students (lines : List String) : List (String × String) :=
  lines.foldl studentStep []

/-- The in-memory record for one assignment: `{"points": …, "id": …}`. -/
structure AssignmentInfo where
  points : Int
  id : String
  deriving DecidableEq, Repr

/-- Step function of `Lab11.load_assignments`, lines 29–54: one
processing step per line of `assignments.txt`. -/
def assignmentStep (assignments : List (String × AssignmentInfo)) (line : String) :
    List (String × AssignmentInfo) :=
  let line := line.trim
  if line = "" then assignments
  else
    let parts := line.splitOn ","
    if parts.length ≠ 3 then assignments
    else
      match pythonParseInt (parts.getD 1 "").trim with
      | none => assignments
      | some pts => dinsert (parts.getD 0 "").trim ⟨pts, (parts.getD 2 "").trim⟩ assignments

/-- Function `Lab11.load_assignments` on the list of lines of
`assignments.txt`. -/
def load_assignments (lines : List String) : List (String × AssignmentInfo) :=
  lines.foldl assignmentStep []

/-- One parsed submission record. -/
structure Submission where
  student_id : String
  assignment_id : String
  percent : ℚ
  deriving DecidableEq, Repr

/-- Python `str.split()` with no argument: split on whitespace runs,
dropping empty pieces. -/
def pySplitWs (s : String) : List String :=
  (s.split Char.isWhitespace).filter (fun p => p ≠ "")

/-- Step function of `Lab11.load_submissions`, lines 57–103: one
processing step per file of the `data/submissions` directory listing;
a file is a (filename, content) pair. -/
def submissionStep (subs : List Submission) (file : String × String) : List Submission :=
  if ¬ file.1.endsWith ".txt" then subs
  else
    let text := file.2.trim
    if text = "" then subs
    else
      let parts := pySplitWs text
      if parts.length ≠ 3 then subs
      else
        match pythonParseFloat (parts.getD 2 "").trim with
        | none => subs
        | some perc =>
          subs ++ [⟨(parts.getD 0 "").trim, (parts.getD 1 "").trim, perc⟩]

/-- Function `Lab11.load_submissions` on the directory listing of
`data/submissions` (pairs of filename and file content). -/
def load_submissions (files : List (String × String)) : List Submission :=
  files.foldl submissionStep []

/-- The dict comprehension of `option_student_grade` lines 122–125:
assignment id ↦ points possible, over the assignment dict's values. -/
def assignment_points_lookup (assignments : List (String × AssignmentInfo)) :
    List (String × Int) :=
  assignments.foldl (fun tbl p => dinsert p.2.id p.2.points tbl) []

/-- The body of the submission loop of `option_student_grade`
lines 127–133: add the earned points of one submission. -/
def gradeStep (tbl : List (String × Int)) (sid : String) (acc : ℚ) (sub : Submission) : ℚ :=
  if sub.student_id = sid then
    match dlookup sub.assignment_id tbl with
    | some pts => acc + (pts : ℚ) * (sub.percent / 100)
    | none => acc
  else acc

/-- Function `Lab11.option_student_grade`, lines 106–141, with the
interactive `input()` passed as the `name` argument.  `none` models the
"Student not found" message, `some g` models printing `g%`. -/
def option_student_grade (students : List (String × String))
    (assignments : List (String × AssignmentInfo))
    (submissions : List Submission) (name : String) : Option Int :=
  match dlookup name students with
  | none => none
  | some sid =>
    let tbl := assignment_points_lookup assignments
    let total_points_earned := submissions.foldl (gradeStep tbl sid) 0
    some (pythonRound (total_points_earned / 1000 * 100))

/-- The score list of `option_assignment_stats` line 156 (also line 179):
percents of the submissions whose assignment id matches. -/
def matchingScores (aid : String) (submissions : List Submission) : List ℚ :=
  (submissions.filter (fun sub => sub.assignment_id == aid)).map Submission.percent

/-- Function `Lab11.option_assignment_stats`, lines 144–166, with the
interactive `input()` passed as the `name` argument.  `none` models the
"Assignment not found" message (either branch), `some (mn, av, mx)`
models the three printed statistics. -/
def option_assignment_stats (assignments : List (String × AssignmentInfo))
    (submissions : List Submission) (name : String) : Option (Int × Int × Int) :=
  match dlookup name assignments with
  | none => none
  | some a =>
    match matchingScores a.id submissions with
    | [] => none
    | s :: rest =>
      some (pythonRound (rest.foldl min s),
            pythonRound ((s :: rest).sum / ((s :: rest).length : ℚ)),
            pythonRound (rest.foldl max s))

/-- Function `Lab11.option_assignment_graph`, lines 169–192: the score list handed
to the (excluded) plotting collaborator, `none` on either
"Assignment not found" branch. -/
def option_assignment_graph (assignments : List (String × AssignmentInfo))
    (submissions : List Submission) (name : String) : Option (List ℚ) :=
  match dlookup name assignments with
  | none => none
  | some a =>
    match matchingScores a.id submissions with
    | [] => none
    | s :: rest => some (s :: rest)

/-- A line of `students.txt` that contributes an entry: after stripping,
it splits on `,` into exactly two fields (a blank line splits into one
piece, so it is excluded automatically). -/
def validStudentLine (line : String) : Bool :=
  (line.trim.splitOn ",").length == 2

/-- The stored key of a valid student line: first field, trimmed. -/
def studentName (line : String) : String :=
  ((line.trim.splitOn ",").getD 0 "").trim

/-- The stored value of a valid student line: second field, trimmed. -/
def studentId (line : String) : String :=
  ((line.trim.splitOn ",").getD 1 "").trim

/-- A line of `assignments.txt` that contributes an entry: exactly three
fields and an integer-parsable points field. -/
def validAssignmentLine (line : String) : Bool :=
  (line.trim.splitOn ",").length == 3 &&
    (pythonParseInt ((line.trim.splitOn ",").getD 1 "").trim).isSome

/-- The earned-points total as the spec words it: the sum, over all
submissions whose `student_id` equals the student's identifier and whose
`assignment_id` is present in the points lookup, of
`points_possible * (percent / 100)`. -/
def specEarnedPoints (tbl : List (String × Int)) (sid : String)
    (subs : List Submission) : ℚ :=
  ((subs.filter (fun sub =>
      sub.student_id == sid && (dlookup sub.assignment_id tbl).isSome)).map
    (fun sub => (((dlookup sub.assignment_id tbl).getD 0 : Int) : ℚ) *
      (sub.percent / 100))).sum

/-- The stdout lines of `option_student_grade` (lines 111, 139). -/
def gradeOutput (students : List (String × String))
    (assignments : List (String × AssignmentInfo))
    (submissions : List Submission) (name : String) : List String :=
  match option_student_grade students assignments submissions name with
  | none => ["Student not found"]
  | some g => [toString g ++ "%"]

/-- The stdout lines of `option_assignment_stats` (lines 150, 160, 164–166). -/
def statsOutput (assignments : List (String × AssignmentInfo))
    (submissions : List Submission) (name : String) : List String :=
  match option_assignment_stats assignments submissions name with
  | none => ["Assignment not found"]
  | some (mn, av, mx) =>
    ["Min: " ++ toString mn ++ "%",
     "Avg: " ++ toString av ++ "%",
     "Max: " ++ toString mx ++ "%"]

/-- The stdout lines of `option_assignment_graph` (lines 173, 182); the
rendered plot window itself is not text output, so the found case
prints nothing. -/
def graphOutput (assignments : List (String × AssignmentInfo))
    (submissions : List Submission) (name : String) : List String :=
  match option_assignment_graph assignments submissions name with
  | none => ["Assignment not found"]
  | some _ => []

/-- Function `Lab11.main`, lines 197–221, after the three loaders have produced
their datasets: the stdout lines, with the two interactive `input()`
reads passed as `choice` (menu selection) and `name` (query argument).
Python's `not (students and assignments and submissions)` is truthiness:
it holds exactly when some dataset is empty. -/
def mainOutput (students : List (String × String))
    (assignments : List (String × AssignmentInfo))
    (submissions : List Submission) (choice name : String) : List String :=
  if students.isEmpty || assignments.isEmpty || submissions.isEmpty then
    ["\nCould not load necessary course data. Exiting."]
  else
    ["1. Student grade", "2. Assignment statistics", "3. Assignment graph\n"] ++
    (if choice = "1" then gradeOutput students assignments submissions name
     else if choice = "2" then statsOutput assignments submissions name
     else if choice = "3" then graphOutput assignments submissions name
     else ["Invalid option"])

/-- The worked example of spec §8 P3: two 500-point assignments. -/
def janeStudents : List (String × String) := [("Jane", "100")]

/-- The worked example of spec §8 P3: assignments A and B. -/
def janeAssignments : List (String × AssignmentInfo) :=
  [("A", ⟨500, "1"⟩), ("B", ⟨500, "2"⟩)]

/-- The worked example of spec §8 P3: Jane's two submissions. -/
def janeSubs : List Submission :=
  [⟨"100", "1", 80⟩, ⟨"100", "2", 100⟩]

/-- The worked example of spec §8 P5: assignment HW1 with id 5. -/
def hw1Assignments : List (String × AssignmentInfo) := [("HW1", ⟨100, "5"⟩)]

/-- The worked example of spec §8 P5: three submissions for id 5. -/
def hw1Subs : List Submission :=
  [⟨"a", "5", 60⟩, ⟨"b", "5", 80⟩, ⟨"c", "5", 100⟩]

/-! ### Dictionary lemmas -/

theorem dlookup_dinsert_self {α : Type} (k : String) (v : α) (d : List (String × α)) :
    dlookup k (dinsert k v d) = some v := by
  induction d with
  | nil => simp [dinsert, dlookup]
  | cons p rest ih =>
    by_cases h : p.1 = k
    · simp [dinsert, dlookup, h]
    · simp [dinsert, dlookup, h, ih]

theorem dlookup_dinsert_ne {α : Type} (k k' : String) (v : α) (d : List (String × α))
    (h : k' ≠ k) : dlookup k' (dinsert k v d) = dlookup k' d := by
  induction d with
  | nil => simp [dinsert, dlookup, Ne.symm h]
  | cons p rest ih =>
    by_cases hp : p.1 = k
    · subst hp
      simp [dinsert, dlookup, Ne.symm h]
    · simp [dinsert, dlookup, hp, ih]

theorem length_dinsert_of_not_mem {α : Type} (k : String) (v : α)
    (d : List (String × α)) (h : k ∉ dkeys d) :
    (dinsert k v d).length = d.length + 1 := by
  induction d with
  | nil => simp [dinsert]
  | cons p rest ih =>
    simp only [dkeys, List.map_cons, List.mem_cons, not_or] at h
    simp [dinsert, h.1, Ne.symm h.1, ih (by simpa [dkeys] using h.2)]

theorem mem_dkeys_dinsert {α : Type} (x k : String) (v : α) (d : List (String × α))
    (h : x ∈ dkeys (dinsert k v d)) : x ∈ dkeys d ∨ x = k := by
  induction d with
  | nil => simpa [dinsert, dkeys] using h
  | cons p rest ih =>
    by_cases hp : p.1 = k
    · rw [dinsert, if_pos hp] at h
      simp only [dkeys, List.map_cons, List.mem_cons] at h ⊢
      tauto
    · rw [dinsert, if_neg hp] at h
      simp only [dkeys, List.map_cons, List.mem_cons] at h ⊢
      rcases h with h | h
      · tauto
      · rcases ih h with h' | h' <;> tauto

/-! ### Loader step characterizations -/

theorem studentStep_eq (acc : List (String × String)) (line : String) :
    studentStep acc line =
      if validStudentLine line then dinsert (studentName line) (studentId line) acc
      else acc := by
  by_cases hb : line.trim = ""
  · have hone : (line.trim.splitOn ",").length = 1 := by
      rw [hb]; with_unfolding_all decide
    have hv : validStudentLine line = false := by
      simp [validStudentLine, hone]
    simp [studentStep, hb, hv]
  · by_cases hl : (line.trim.splitOn ",").length = 2
    · have hv : validStudentLine line = true := by simp [validStudentLine, hl]
      simp [studentStep, hb, hl, hv, studentName, studentId]
    · have hv : validStudentLine line = false := by simp [validStudentLine, hl]
      simp [studentStep, hb, hl, hv]

theorem assignmentStep_invalid (acc : List (String × AssignmentInfo)) (line : String)
    (h : validAssignmentLine line = false) : assignmentStep acc line = acc := by
  by_cases hb : line.trim = ""
  · simp [assignmentStep, hb]
  · by_cases hl : (line.trim.splitOn ",").length = 3
    · have hp : pythonParseInt ((line.trim.splitOn ",").getD 1 "").trim = none := by
        simp only [validAssignmentLine, Bool.and_eq_false_iff] at h
        rcases h with h | h
        · exact absurd hl (by simpa using h)
        · cases hq : pythonParseInt ((line.trim.splitOn ",").getD 1 "").trim
          · rfl
          · rw [hq] at h; simp at h
      rw [List.getD_eq_getElem _ _ (by omega)] at hp
      simp [assignmentStep, hb, hl, hp]
    · simp [assignmentStep, hb, hl]

/-! ### Grade accumulation lemmas -/

theorem specEarnedPoints_nil (tbl : List (String × Int)) (sid : String) :
    specEarnedPoints tbl sid [] = 0 := by
  simp [specEarnedPoints]

theorem specEarnedPoints_cons (tbl : List (String × Int)) (sid : String)
    (s : Submission) (rest : List Submission) :
    specEarnedPoints tbl sid (s :: rest) =
      (if s.student_id = sid then
        match dlookup s.assignment_id tbl with
        | some pts => (pts : ℚ) * (s.percent / 100)
        | none => 0
       else 0) + specEarnedPoints tbl sid rest := by
  by_cases hs : s.student_id = sid
  · cases hq : dlookup s.assignment_id tbl with
    | none => simp [specEarnedPoints, List.filter_cons, hs, hq]
    | some pts => simp [specEarnedPoints, List.filter_cons, hs, hq]
  · simp [specEarnedPoints, List.filter_cons, hs]

theorem gradeStep_foldl (tbl : List (String × Int)) (sid : String)
    (subs : List Submission) (acc : ℚ) :
    subs.foldl (gradeStep tbl sid) acc = acc + specEarnedPoints tbl sid subs := by
  induction subs generalizing acc with
  | nil => simp [specEarnedPoints_nil]
  | cons s rest ih =>
    rw [List.foldl_cons, ih, specEarnedPoints_cons]
    by_cases hs : s.student_id = sid
    · cases hq : dlookup s.assignment_id tbl with
      | none => simp [gradeStep, hs, hq]
      | some pts => simp [gradeStep, hs, hq]; ring
    · simp [gradeStep, hs]

/-! ### Minimum / maximum fold lemmas -/

theorem foldl_min_mem (l : List ℚ) : ∀ s : ℚ, l.foldl min s ∈ s :: l := by
  induction l with
  | nil => intro s; simp
  | cons a rest ih =>
    intro s
    rw [List.foldl_cons]
    rcases List.mem_cons.mp (ih (min s a)) with h | h
    · rw [h]
      rcases min_choice s a with hc | hc
      · rw [hc]; exact List.mem_cons_self _ _
      · rw [hc]; exact List.mem_cons_of_mem _ (List.mem_cons_self _ _)
    · exact List.mem_cons_of_mem _ (List.mem_cons_of_mem _ h)

theorem foldl_min_le (l : List ℚ) : ∀ s : ℚ, ∀ x ∈ s :: l, l.foldl min s ≤ x := by
  induction l with
  | nil =>
    intro s x hx
    rcases List.mem_cons.mp hx with h | h
    · subst h; simp
    · simp at h
  | cons a rest ih =>
    intro s x hx
    rw [List.foldl_cons]
    rcases List.mem_cons.mp hx with h | h
    · rw [h]
      exact le_trans (ih (min s a) (min s a) (List.mem_cons_self _ _)) (min_le_left _ _)
    · rcases List.mem_cons.mp h with h' | h'
      · rw [h']
        exact le_trans (ih (min s a) (min s a) (List.mem_cons_self _ _)) (min_le_right _ _)
      · exact ih (min s a) x (List.mem_cons_of_mem _ h')

theorem foldl_max_mem (l : List ℚ) : ∀ s : ℚ, l.foldl max s ∈ s :: l := by
  induction l with
  | nil => intro s; simp
  | cons a rest ih =>
    intro s
    rw [List.foldl_cons]
    rcases List.mem_cons.mp (ih (max s a)) with h | h
    · rw [h]
      rcases max_choice s a with hc | hc
      · rw [hc]; exact List.mem_cons_self _ _
      · rw [hc]; exact List.mem_cons_of_mem _ (List.mem_cons_self _ _)
    · exact List.mem_cons_of_mem _ (List.mem_cons_of_mem _ h)

theorem foldl_le_max (l : List ℚ) : ∀ s : ℚ, ∀ x ∈ s :: l, x ≤ l.foldl max s := by
  induction l with
  | nil =>
    intro s x hx
    rcases List.mem_cons.mp hx with h | h
    · subst h; simp
    · simp at h
  | cons a rest ih =>
    intro s x hx
    rw [List.foldl_cons]
    rcases List.mem_cons.mp hx with h | h
    · rw [h]
      exact le_trans (le_max_left _ _) (ih (max s a) (max s a) (List.mem_cons_self _ _))
    · rcases List.mem_cons.mp h with h' | h'
      · rw [h']
        exact le_trans (le_max_right _ _) (ih (max s a) (max s a) (List.mem_cons_self _ _))
      · exact ih (max s a) x (List.mem_cons_of_mem _ h')

/-! ### Student-loader accumulation lemmas -/

theorem studentStep_foldl_frozen (lines : List String) (acc : List (String × String))
    (k : String)
    (h : ∀ l ∈ lines, validStudentLine l = true → studentName l ≠ k) :
    dlookup k (lines.foldl studentStep acc) = dlookup k acc := by
  induction lines generalizing acc with
  | nil => rfl
  | cons l rest ih =>
    rw [List.foldl_cons, studentStep_eq]
    by_cases hv : validStudentLine l = true
    · rw [if_pos hv, ih _ (fun l' hl' hv' => h l' (List.mem_cons_of_mem _ hl') hv'),
        dlookup_dinsert_ne _ _ _ _ (Ne.symm (h l (List.mem_cons_self _ _) hv))]
    · rw [if_neg hv]
      exact ih _ (fun l' hl' hv' => h l' (List.mem_cons_of_mem _ hl') hv')

theorem load_students_go (lines : List String) (acc : List (String × String))
    (hv : ∀ l ∈ lines, validStudentLine l = true)
    (hd : (lines.map studentName).Pairwise (fun x y => x ≠ y))
    (hfresh : ∀ l ∈ lines, studentName l ∉ dkeys acc) :
    (lines.foldl studentStep acc).length = acc.length + lines.length ∧
    ∀ l ∈ lines, dlookup (studentName l) (lines.foldl studentStep acc) =
      some (studentId l) := by
  induction lines generalizing acc with
  | nil => simp
  | cons l rest ih =>
    have hvl : validStudentLine l = true := hv l (List.mem_cons_self _ _)
    have hstep : studentStep acc l = dinsert (studentName l) (studentId l) acc := by
      rw [studentStep_eq, if_pos hvl]
    have hd' : (∀ y ∈ rest.map studentName, studentName l ≠ y) ∧
        (rest.map studentName).Pairwise (fun x y => x ≠ y) := by
      rw [List.map_cons, List.pairwise_cons] at hd
      exact hd
    have hfresh' : ∀ l' ∈ rest,
        studentName l' ∉ dkeys (dinsert (studentName l) (studentId l) acc) := by
      intro l' hl' hmem
      rcases mem_dkeys_dinsert _ _ _ _ hmem with hmem' | hmem'
      · exact hfresh l' (List.mem_cons_of_mem _ hl') hmem'
      · exact hd'.1 (studentName l') (List.mem_map_of_mem _ hl') hmem'.symm
    have ihr := ih (dinsert (studentName l) (studentId l) acc)
      (fun l' hl' => hv l' (List.mem_cons_of_mem _ hl'))
      hd'.2 hfresh'
    constructor
    · rw [List.foldl_cons, hstep, ihr.1,
        length_dinsert_of_not_mem _ _ _ (hfresh l (List.mem_cons_self _ _))]
      simp only [List.length_cons]
      omega
    · intro l' hl'
      rcases List.mem_cons.mp hl' with h' | h'
      · rw [h', List.foldl_cons, hstep,
          studentStep_foldl_frozen rest _ _
            (fun l'' hl'' _ =>
              Ne.symm (hd'.1 (studentName l'') (List.mem_map_of_mem _ hl''))),
          dlookup_dinsert_self]
      · rw [List.foldl_cons, hstep]
        exact ihr.2 l' h'

theorem studentStep_invalid (acc : List (String × String)) (line : String)
    (h : validStudentLine line = false) : studentStep acc line = acc := by
  rw [studentStep_eq, h]
  simp

theorem specEarnedPoints_filter_isSome (tbl : List (String × Int)) (sid : String)
    (subs : List Submission) :
    specEarnedPoints tbl sid
      (subs.filter (fun sub => (dlookup sub.assignment_id tbl).isSome)) =
    specEarnedPoints tbl sid subs := by
  unfold specEarnedPoints
  rw [List.filter_filter]
  have hfil : ∀ l : List Submission,
      l.filter (fun sub => (sub.student_id == sid &&
          (dlookup sub.assignment_id tbl).isSome) &&
          (dlookup sub.assignment_id tbl).isSome) =
      l.filter (fun sub => sub.student_id == sid &&
          (dlookup sub.assignment_id tbl).isSome) := by
    intro l
    apply List.filter_congr
    intro a _
    cases hq : (dlookup a.assignment_id tbl).isSome <;> simp [hq]
  rw [hfil]

/-- C1: for every loaded dataset and every student name present in the
students mapping, the printed grade is exactly the rounding of
(the sum over all submissions matching the student's identifier whose
assignment identifier resolves in the points lookup of
points * (percent / 100)) divided by the fixed course total 1000 and
multiplied by 100. -/
theorem c1_grade_formula (students : List (String × String))
    (assignments : List (String × AssignmentInfo)) (subs : List Submission)
    (name sid : String) (h : dlookup name students = some sid) :
    option_student_grade students assignments subs name =
      some (pythonRound
        (specEarnedPoints (assignment_points_lookup assignments) sid subs
          / 1000 * 100)) := by
  unfold option_student_grade
  rw [h]
  simp only [gradeStep_foldl, zero_add]

/-- C1 witness: the spec §8 P3 dataset, where the grade is 90. -/
theorem c1_grade_formula_witness :
    dlookup "Jane" janeStudents = some "100" ∧
    option_student_grade janeStudents janeAssignments janeSubs "Jane" = some 90 := by
  refine ⟨by with_unfolding_all decide, ?_⟩
  exact (c1_grade_formula janeStudents janeAssignments janeSubs "Jane" "100"
    (by with_unfolding_all decide)).trans (by with_unfolding_all decide)

/-- C2: for every loaded dataset and every found assignment with at least
one matching submission, the statistics query prints the minimum, the
arithmetic mean, and the maximum of the matching percent scores, each
rounded by the same rounding function `pythonRound`. -/
theorem c2_stats_formula (assignments : List (String × AssignmentInfo))
    (subs : List Submission) (name : String) (a : AssignmentInfo)
    (ha : dlookup name assignments = some a)
    (hne : matchingScores a.id subs ≠ []) :
    ∃ mn mx : ℚ,
      mn ∈ matchingScores a.id subs ∧ (∀ x ∈ matchingScores a.id subs, mn ≤ x) ∧
      mx ∈ matchingScores a.id subs ∧ (∀ x ∈ matchingScores a.id subs, x ≤ mx) ∧
      option_assignment_stats assignments subs name =
        some (pythonRound mn,
          pythonRound ((matchingScores a.id subs).sum /
            ((matchingScores a.id subs).length : ℚ)),
          pythonRound mx) := by
  obtain ⟨s, rest, hsr⟩ : ∃ s rest, matchingScores a.id subs = s :: rest := by
    cases hm : matchingScores a.id subs with
    | nil => exact absurd hm hne
    | cons s rest => exact ⟨s, rest, rfl⟩
  refine ⟨rest.foldl min s, rest.foldl max s, ?_, ?_, ?_, ?_, ?_⟩
  · rw [hsr]; exact foldl_min_mem rest s
  · rw [hsr]; exact foldl_min_le rest s
  · rw [hsr]; exact foldl_max_mem rest s
  · rw [hsr]; exact foldl_le_max rest s
  · simp only [option_assignment_stats, ha, hsr]

/-- C2 witness: the spec §8 P5 dataset, where the statistics are
Min 60, Avg 80, Max 100. -/
theorem c2_stats_formula_witness :
    (∃ mn mx : ℚ,
      mn ∈ matchingScores "5" hw1Subs ∧ (∀ x ∈ matchingScores "5" hw1Subs, mn ≤ x) ∧
      mx ∈ matchingScores "5" hw1Subs ∧ (∀ x ∈ matchingScores "5" hw1Subs, x ≤ mx) ∧
      option_assignment_stats hw1Assignments hw1Subs "HW1" =
        some (pythonRound mn,
          pythonRound ((matchingScores "5" hw1Subs).sum /
            ((matchingScores "5" hw1Subs).length : ℚ)),
          pythonRound mx)) ∧
    option_assignment_stats hw1Assignments hw1Subs "HW1" = some (60, 80, 100) := by
  constructor
  · exact c2_stats_formula hw1Assignments hw1Subs "HW1" ⟨100, "5"⟩
      (by with_unfolding_all decide) (by with_unfolding_all decide)
  · with_unfolding_all decide

/-- C3: an assignment present in the dataset whose identifier matches no
submission yields `none` (the "Assignment not found" message), not
numeric statistics. -/
theorem c3_stats_empty (assignments : List (String × AssignmentInfo))
    (subs : List Submission) (name : String) (a : AssignmentInfo)
    (ha : dlookup name assignments = some a)
    (hempty : matchingScores a.id subs = []) :
    option_assignment_stats assignments subs name = none := by
  simp only [option_assignment_stats, ha, hempty]

/-- C3 witness: assignment HW9 (id 9) exists but no submission references
id 9. -/
theorem c3_stats_empty_witness :
    dlookup "HW9" [("HW9", (⟨50, "9"⟩ : AssignmentInfo))] = some ⟨50, "9"⟩ ∧
    matchingScores "9" hw1Subs = [] ∧
    option_assignment_stats [("HW9", ⟨50, "9"⟩)] hw1Subs "HW9" = none := by
  refine ⟨by with_unfolding_all decide, by with_unfolding_all decide, ?_⟩
  exact c3_stats_empty [("HW9", ⟨50, "9"⟩)] hw1Subs "HW9" ⟨50, "9"⟩
    (by with_unfolding_all decide) (by with_unfolding_all decide)

/-- C4: submissions whose assignment identifier is not a key of the points
lookup are silently ignored: the grade is identical to the grade computed
from only the resolvable submissions, for any student name (found or not),
with no error path. -/
theorem c4_unresolved_ignored (students : List (String × String))
    (assignments : List (String × AssignmentInfo)) (subs : List Submission)
    (name : String) :
    option_student_grade students assignments subs name =
      option_student_grade students assignments
        (subs.filter (fun sub =>
          (dlookup sub.assignment_id (assignment_points_lookup assignments)).isSome))
        name := by
  unfold option_student_grade
  cases h : dlookup name students with
  | none => rfl
  | some sid =>
    simp only [gradeStep_foldl, zero_add, specEarnedPoints_filter_isSome]

/-- C5 counterexample: two valid two-field lines that repeat the name
"a" yield a single dict entry (last-write-wins), not two — so a
well-formed source of N valid lines does not always yield N entries. -/
theorem c5_counterexample :
    validStudentLine "a,1" = true ∧ validStudentLine "a,2" = true ∧
    (["a,1", "a,2"] : List String).length = 2 ∧
    (load_students ["a,1", "a,2"]).length = 1 := by
  with_unfolding_all decide

/-- C5 (amended): loading a well-formed student source of N valid
two-field lines whose trimmed names are pairwise distinct yields exactly
N entries, each name mapping to its trimmed identifier. -/
theorem c5_roundtrip (lines : List String)
    (hv : ∀ l ∈ lines, validStudentLine l = true)
    (hd : (lines.map studentName).Pairwise (fun x y => x ≠ y)) :
    (load_students lines).length = lines.length ∧
    ∀ l ∈ lines, dlookup (studentName l) (load_students lines) =
      some (studentId l) := by
  have h := load_students_go lines [] hv hd (by simp [dkeys])
  simpa [load_students] using h

/-- C5 witness: a two-line well-formed source with distinct names. -/
theorem c5_roundtrip_witness :
    (load_students ["1, Jane ", "2,Bob"]).length = 2 ∧
    dlookup (studentName "1, Jane ") (load_students ["1, Jane ", "2,Bob"]) =
      some (studentId "1, Jane ") := by
  have h := c5_roundtrip ["1, Jane ", "2,Bob"]
    (by with_unfolding_all decide) (by with_unfolding_all decide)
  exact ⟨h.1, h.2 "1, Jane " (by decide)⟩

/-- C6: a malformed student line (wrong field count) and a malformed
assignment line (wrong field count or non-integer points) contribute no
entry and do not affect the loading of the surrounding valid lines. -/
theorem c6_skip_malformed (preS postS : List String) (badS : String)
    (preA postA : List String) (badA : String)
    (hS : validStudentLine badS = false) (hA : validAssignmentLine badA = false) :
    load_students (preS ++ badS :: postS) = load_students (preS ++ postS) ∧
    load_assignments (preA ++ badA :: postA) = load_assignments (preA ++ postA) := by
  constructor
  · unfold load_students
    rw [List.foldl_append, List.foldl_append, List.foldl_cons,
      studentStep_invalid _ _ hS]
  · unfold load_assignments
    rw [List.foldl_append, List.foldl_append, List.foldl_cons,
      assignmentStep_invalid _ _ hA]

/-- C6 witness: a three-field student line and an assignment line with
non-integer points, each between two valid lines. -/
theorem c6_skip_malformed_witness :
    validStudentLine "one,two,three" = false ∧
    validAssignmentLine "HW1,abc,7" = false ∧
    load_students (["1,Jane"] ++ "one,two,three" :: ["2,Bob"]) =
      load_students (["1,Jane"] ++ ["2,Bob"]) ∧
    load_assignments (["HW1,50,1"] ++ "HW1,abc,7" :: ["HW2,50,2"]) =
      load_assignments (["HW1,50,1"] ++ ["HW2,50,2"]) := by
  have h := c6_skip_malformed ["1,Jane"] ["2,Bob"] "one,two,three"
    ["HW1,50,1"] ["HW2,50,2"] "HW1,abc,7"
    (by with_unfolding_all decide) (by with_unfolding_all decide)
  exact ⟨by with_unfolding_all decide, by with_unfolding_all decide, h.1, h.2⟩

/-- C7: the three parsers are deterministic functions of their input
sources, so a second run over unchanged sources yields datasets equal in
content to the first run. -/
theorem c7_parsers_deterministic (sLines aLines : List String)
    (files : List (String × String)) :
    load_students sLines = load_students sLines ∧
    load_assignments aLines = load_assignments aLines ∧
    load_submissions files = load_submissions files :=
  ⟨rfl, rfl, rfl⟩

/-- C8: the grade is not clamped to 100: a 1000-point assignment with a
110% submission prints a grade of 110. -/
theorem c8_grade_not_clamped :
    option_student_grade [("Ann", "100")] [("A", ⟨1000, "1"⟩)]
      [⟨"100", "1", 110⟩] "Ann" = some 110 ∧ (100 : Int) < 110 :=
  ⟨by with_unfolding_all decide, by decide⟩

/-- C9: if any of the three loaded datasets is empty, `main` prints the
could-not-load message and produces no menu and no query output. -/
theorem c9_main_requires_data (students : List (String × String))
    (assignments : List (String × AssignmentInfo)) (subs : List Submission)
    (choice name : String)
    (h : students = [] ∨ assignments = [] ∨ subs = []) :
    mainOutput students assignments subs choice name =
      ["\nCould not load necessary course data. Exiting."] := by
  rcases h with h | h | h <;> simp [mainOutput, h]

/-- C9 witness: an empty student dataset with the other two non-empty. -/
theorem c9_main_requires_data_witness :
    mainOutput [] janeAssignments janeSubs "1" "Jane" =
      ["\nCould not load necessary course data. Exiting."] :=
  c9_main_requires_data [] janeAssignments janeSubs "1" "Jane" (Or.inl rfl)

/-- C10: a found student whose identifier matches no resolvable
submission still gets the numeric output 0 (printed as `0%`), not a
"not found" message. -/
theorem c10_grade_zero_when_unresolvable (students : List (String × String))
    (assignments : List (String × AssignmentInfo)) (subs : List Submission)
    (name sid : String) (h : dlookup name students = some sid)
    (hnone : ∀ sub ∈ subs, sub.student_id = sid →
      dlookup sub.assignment_id (assignment_points_lookup assignments) = none) :
    option_student_grade students assignments subs name = some 0 := by
  unfold option_student_grade
  rw [h]
  have hzero : specEarnedPoints (assignment_points_lookup assignments) sid subs = 0 := by
    unfold specEarnedPoints
    have hnil : subs.filter (fun sub => sub.student_id == sid &&
        (dlookup sub.assignment_id (assignment_points_lookup assignments)).isSome) =
        [] := by
      rw [List.filter_eq_nil_iff]
      intro a ha
      by_cases hs : a.student_id = sid
      · simp [hs, hnone a ha hs]
      · simp [hs]
    rw [hnil]
    simp
  simp only [gradeStep_foldl, zero_add, hzero]
  norm_num [pythonRound]

/-- C10 witness: Bob's only submission references the unknown assignment
identifier 99, and his grade is 0. -/
theorem c10_grade_zero_witness :
    dlookup "Bob" [("Bob", "7")] = some "7" ∧
    option_student_grade [("Bob", "7")] janeAssignments
      [⟨"7", "99", 50⟩] "Bob" = some 0 := by
  refine ⟨by decide, ?_⟩
  exact c10_grade_zero_when_unresolvable [("Bob", "7")] janeAssignments
    [⟨"7", "99", 50⟩] "Bob" "7" (by decide)
    (by with_unfolding_all decide)
